import Mathlib

/-!
Shallow embedding of the slgclient map streaming core: the coordinate /
partition utilities of `MapUtil` (src/unnamed/part_000) and the area
streaming cache of `MapProxy` / `MapAreaData`
(src/assets/scripts/map/MapProxy.ts).

JavaScript `number` values are modelled by `ℚ` (all pixel arithmetic),
grid/area coordinates and ids by `ℤ`, `Math.floor` by `Int.floor` and
`Math.ceil` by `Int.ceil`.  The mutable static configuration of `MapUtil`
is modelled as an explicit `MapConfig` value, the mutable fields of
`MapProxy` as an explicit `ProxyState`, and `EventMgr.emit` calls as an
output list of `MapEvent`s.
-/

namespace SLG

/-- The one-time configuration stored in `MapUtil`'s static fields:
`_tileSize`, `_mapSize`, `_mapOffsetPoint`, `_areaCellSize`, `_areaSize`,
plus the visible view size used by `MapProxy.setCurCenterPoint`. -/
structure MapConfig where
  tileW : ℚ
  tileH : ℚ
  mapW : ℤ
  mapH : ℤ
  offX : ℚ
  offY : ℚ
  areaCellW : ℤ
  areaCellH : ℤ
  areaSizeW : ℤ
  areaSizeH : ℤ
  viewW : ℚ
  viewH : ℚ
deriving DecidableEq

namespace MapUtil

/-- `initMapConfig` line 70: the area cell side length
`showH = Math.min(Math.ceil(vsize.height / tileH / 2) * 2 + 2, mapH)`. -/
def initAreaCellSide (viewH tileH : ℚ) (mapH : ℤ) : ℤ :=
  min (⌈viewH / tileH / 2⌉ * 2 + 2) mapH

/-- `_zeroPixelPoint.x = mapSize.width * tileSize.width * 0.5`. -/
def zeroPixelX (c : MapConfig) : ℚ := (c.mapW : ℚ) * c.tileW * (1 / 2)

/-- `_zeroPixelPoint.y = mapSize.height * tileSize.height - tileSize.height * 0.5`. -/
def zeroPixelY (c : MapConfig) : ℚ := (c.mapH : ℚ) * c.tileH - c.tileH * (1 / 2)

/-- `MapUtil.areaCount = areaSize.width * areaSize.height`. -/
def areaCount (c : MapConfig) : ℤ := c.areaSizeW * c.areaSizeH

/-- `MapUtil.getIdByAreaPoint(x, y) = x + y * areaSize.width`. -/
def getIdByAreaPoint (c : MapConfig) (x y : ℤ) : ℤ := x + y * c.areaSizeW

/-- `MapUtil.getAreaPointById(id) = (id % areaSize.width, floor(id / areaSize.width))`. -/
def getAreaPointById (c : MapConfig) (id : ℤ) : ℤ × ℤ :=
  (id.tmod c.areaSizeW, ⌊(id : ℚ) / (c.areaSizeW : ℚ)⌋)

/-- `MapUtil.get9GridAreaIds(id)`: the raw 3×3 block of area ids, in the
source's row order. -/
def get9GridAreaIds (c : MapConfig) (id : ℤ) : List ℤ :=
  [id + c.areaSizeW - 1, id + c.areaSizeW, id + c.areaSizeW + 1,
   id - 1, id, id + 1,
   id - c.areaSizeW - 1, id - c.areaSizeW, id - c.areaSizeW + 1]

/-- `MapUtil.isVaildAreaId(id) = 0 <= id && id < areaCount`. -/
def isVaildAreaId (c : MapConfig) (id : ℤ) : Bool :=
  decide (0 ≤ id ∧ id < areaCount c)

/-- `MapUtil.get9GridVaildAreaIds(id)`: the raw 9-grid filtered through
`isVaildAreaId`, order preserved. -/
def get9GridVaildAreaIds (c : MapConfig) (id : ℤ) : List ℤ :=
  (get9GridAreaIds c id).filter (fun i => isVaildAreaId c i)

/-- `MapUtil.getAreaPointByCellPoint(x, y) =
(floor(x / areaCellSize.width), floor(y / areaCellSize.height))`. -/
def getAreaPointByCellPoint (c : MapConfig) (x y : ℤ) : ℤ × ℤ :=
  (⌊(x : ℚ) / (c.areaCellW : ℚ)⌋, ⌊(y : ℚ) / (c.areaCellH : ℚ)⌋)

/-- `MapUtil.getAreaIdByCellPoint(x, y)`. -/
def getAreaIdByCellPoint (c : MapConfig) (x y : ℤ) : ℤ :=
  getIdByAreaPoint c (getAreaPointByCellPoint c x y).1 (getAreaPointByCellPoint c x y).2

/-- `MapUtil.getStartCellPointByAreaPoint(x, y) = (x * areaCellW, y * areaCellH)`. -/
def getStartCellPointByAreaPoint (c : MapConfig) (x y : ℤ) : ℤ × ℤ :=
  (x * c.areaCellW, y * c.areaCellH)

/-- `MapUtil.getEndCellPointByAreaPoint(x, y) = ((x+1) * areaCellW, (y+1) * areaCellH)`. -/
def getEndCellPointByAreaPoint (c : MapConfig) (x y : ℤ) : ℤ × ℤ :=
  ((x + 1) * c.areaCellW, (y + 1) * c.areaCellH)

/-- `MapUtil.worldPixelToMapCellPoint(point)`:
`x = floor(0.5 * mapH + px / tileW - py / tileH)`,
`y = floor(1.5 * mapW - px / tileW - py / tileH)`. -/
def worldPixelToMapCellPoint (c : MapConfig) (p : ℚ × ℚ) : ℤ × ℤ :=
  (⌊(1 / 2 : ℚ) * (c.mapH : ℚ) + p.1 / c.tileW - p.2 / c.tileH⌋,
   ⌊(3 / 2 : ℚ) * (c.mapW : ℚ) - p.1 / c.tileW - p.2 / c.tileH⌋)

/-- `MapUtil.mapCellToWorldPixelPoint(point)`:
`(zeroX - (y - x) * tileW * 0.5, zeroY - (x + y) * tileH * 0.5)`. -/
def mapCellToWorldPixelPoint (c : MapConfig) (p : ℤ × ℤ) : ℚ × ℚ :=
  (zeroPixelX c - ((p.2 : ℚ) - (p.1 : ℚ)) * c.tileW * (1 / 2),
   zeroPixelY c - ((p.1 : ℚ) + (p.2 : ℚ)) * c.tileH * (1 / 2))

/-- `MapUtil.mapCellToPixelPoint(point)`: world point minus the map
anchor offset. -/
def mapCellToPixelPoint (c : MapConfig) (p : ℤ × ℤ) : ℚ × ℚ :=
  ((mapCellToWorldPixelPoint c p).1 - c.offX, (mapCellToWorldPixelPoint c p).2 - c.offY)

/-- `MapUtil.mapPixelToCellPoint(point)`: add the map anchor offset,
then invert the isometric projection. -/
def mapPixelToCellPoint (c : MapConfig) (p : ℚ × ℚ) : ℤ × ℤ :=
  worldPixelToMapCellPoint c (p.1 + c.offX, p.2 + c.offY)

/-- `MapUtil.getVaildAreaIdsByPixelPoints(...points)`: map each pixel
point to its cell, then its area id; keep valid ids, first appearance
order, no duplicates. -/
def getVaildAreaIdsByPixelPoints (c : MapConfig) (points : List (ℚ × ℚ)) : List ℤ :=
  points.foldl
    (fun list p =>
      let cellPoint := mapPixelToCellPoint c p
      let areaPoint := getAreaPointByCellPoint c cellPoint.1 cellPoint.2
      let index := getIdByAreaPoint c areaPoint.1 areaPoint.2
      if isVaildAreaId c index = true ∧ index ∉ list then list ++ [index] else list)
    []

end MapUtil

/-- The per-area descriptor `MapAreaData` (MapProxy.ts lines 87-152). -/
structure MapAreaData where
  id : ℤ
  x : ℤ
  y : ℤ
  startCellX : ℤ
  startCellY : ℤ
  endCellX : ℤ
  endCellY : ℤ
  len : ℤ
  qryStartTime : ℤ
deriving DecidableEq

namespace MapAreaData

/-- `MapAreaData.MAX_TIME = 10000` milliseconds. -/
def MAX_TIME : ℤ := 10000

/-- `MapAreaData.checkAndUpdateQryTime()`: `Date.now()` is passed in as
`now`; returns the permit flag and the (possibly updated) descriptor. -/
def checkAndUpdateQryTime (d : MapAreaData) (now : ℤ) : Bool × MapAreaData :=
  if now - d.qryStartTime ≥ MAX_TIME then (true, { d with qryStartTime := now })
  else (false, d)

/-- `MapAreaData.fuzzyEquals(other, variance)`: both area coordinates of
`other` within `variance` of this descriptor's. -/
def fuzzyEquals (d other : MapAreaData) (variance : ℤ) : Bool :=
  decide (d.x - variance ≤ other.x ∧ other.x ≤ d.x + variance ∧
          d.y - variance ≤ other.y ∧ other.y ≤ d.y + variance)

end MapAreaData

/-- Notifications sent through `EventMgr.emit` during `setCurCenterPoint`:
`LogicEvent.mapEenterChange` and `LogicEvent.mapShowAreaChange`. -/
inductive MapEvent where
  | centerChange (point : ℤ × ℤ)
  | showAreaChange (point : ℤ × ℤ) (areaId : ℤ) (addIds removeIds : List ℤ)
deriving DecidableEq

/-- The mutable fields of `MapProxy` that the streaming cache touches:
`_curCenterPoint`, `_curCenterAreaId`, `_mapAreaDatas` (a sparse array,
modelled as an association list) and `qryAreaIds`. -/
structure ProxyState where
  curCenterPoint : Option (ℤ × ℤ)
  curCenterAreaId : ℤ
  mapAreaDatas : List (ℤ × MapAreaData)
  qryAreaIds : List ℤ
deriving DecidableEq

namespace MapProxy

/-- The descriptor built by `MapProxy.getMapAreaData` on a cache miss
(lines 421-434); note the source uses `areaCellSize.width` for
`endCellY` and `len` as well. -/
def mkAreaData (c : MapConfig) (id : ℤ) : MapAreaData :=
  let point := MapUtil.getAreaPointById c id
  let startCellPoint := MapUtil.getStartCellPointByAreaPoint c point.1 point.2
  { id := id
    x := point.1
    y := point.2
    startCellX := startCellPoint.1
    startCellY := startCellPoint.2
    endCellX := startCellPoint.1 + c.areaCellW
    endCellY := startCellPoint.2 + c.areaCellW
    len := c.areaCellW
    qryStartTime := 0 }

/-- `MapProxy.getMapAreaData(id)`: return the cached descriptor, or
create, store and return a fresh one. -/
def getMapAreaData (c : MapConfig) (st : List (ℤ × MapAreaData)) (id : ℤ) :
    MapAreaData × List (ℤ × MapAreaData) :=
  match st.lookup id with
  | some d => (d, st)
  | none => (mkAreaData c id, st ++ [(id, mkAreaData c id)])

/-- JavaScript `Array.prototype.indexOf` on a list of ids: first index
of `x`, `-1` when absent. -/
def jsIndexOf : List ℤ → ℤ → ℤ
  | [], _ => -1
  | a :: t, x =>
    if a = x then 0
    else
      let r := jsIndexOf t x
      if r = -1 then -1 else r + 1

/-- The five pixel probes of the full-refresh branch (lines 336-349):
the center pixel and the four screen corners, in source call order. -/
def cornerPoints (c : MapConfig) (p : ℚ × ℚ) : List (ℚ × ℚ) :=
  [p,
   (p.1 - c.viewW * (1 / 2), p.2 + c.viewH * (1 / 2)),
   (p.1 - c.viewW * (1 / 2), p.2 - c.viewH * (1 / 2)),
   (p.1 + c.viewW * (1 / 2), p.2 + c.viewH * (1 / 2)),
   (p.1 + c.viewW * (1 / 2), p.2 - c.viewH * (1 / 2))]

/-- Common tail of the area-transition path (lines 369-391): split
`addIds` into priority (`firstAreaIds`) and the rest, append the fetch
queue increment, update the center area id, emit the two events.  A JS
`null` priority array is modelled as `[]` (observationally identical at
the `firstAreaIds && firstAreaIds.length > 0` guard). -/
def finishTransition (s : ProxyState) (point : ℤ × ℤ) (areaId : ℤ)
    (st : List (ℤ × MapAreaData)) (addIds removeIds firstAreaIds : List ℤ) :
    Bool × ProxyState × List MapEvent :=
  let otherAreaIds :=
    if firstAreaIds ≠ [] then addIds.filter (fun i => !(firstAreaIds.contains i))
    else addIds
  let qryIndexs :=
    if firstAreaIds ≠ [] then firstAreaIds ++ otherAreaIds else otherAreaIds
  (true,
   { curCenterPoint := some point
     curCenterAreaId := areaId
     mapAreaDatas := st
     qryAreaIds := s.qryAreaIds ++ qryIndexs },
   [MapEvent.centerChange point, MapEvent.showAreaChange point areaId addIds removeIds])

/-- `MapProxy.setCurCenterPoint(point, pixelPoint)` (lines 308-396),
returning the boolean result, the new state and the emitted events. -/
def setCurCenterPoint (c : MapConfig) (s : ProxyState) (point : ℤ × ℤ)
    (pixelPoint : ℚ × ℚ) : Bool × ProxyState × List MapEvent :=
  if s.curCenterPoint = some point then (false, s, [])
  else
    let areaPoint := MapUtil.getAreaPointByCellPoint c point.1 point.2
    let areaId := MapUtil.getIdByAreaPoint c areaPoint.1 areaPoint.2
    if s.curCenterAreaId = -1 ∨ s.curCenterAreaId ≠ areaId then
      let fetchNew := getMapAreaData c s.mapAreaDatas areaId
      let areaData := fetchNew.1
      let st1 := fetchNew.2
      let newIds := MapUtil.get9GridVaildAreaIds c areaData.id
      if s.curCenterAreaId = -1 then
        finishTransition s point areaId st1 newIds []
          (MapUtil.getVaildAreaIdsByPixelPoints c (cornerPoints c pixelPoint))
      else
        let fetchOld := getMapAreaData c st1 s.curCenterAreaId
        let oldData := fetchOld.1
        let st2 := fetchOld.2
        if MapAreaData.fuzzyEquals oldData areaData 3 = false then
          finishTransition s point areaId st2 newIds []
            (MapUtil.getVaildAreaIdsByPixelPoints c (cornerPoints c pixelPoint))
        else
          let oldIds := MapUtil.get9GridVaildAreaIds c s.curCenterAreaId
          let addIds := newIds.filter (fun i => !(oldIds.contains i))
          let removeIds := oldIds.filter (fun i => !(newIds.contains i))
          let firstAreaIds :=
            if jsIndexOf addIds areaData.id ≠ 0 then [areaData.id] else []
          finishTransition s point areaId st2 addIds removeIds firstAreaIds
    else
      (true, { s with curCenterPoint := some point }, [MapEvent.centerChange point])

end MapProxy

/-- The example configuration of the spec: tile 256×128, map 20×20 cells,
area side 8 (viewport 960×640 gives `initAreaCellSide = 8`), area grid
3×3, anchor offset (2560, 1280). -/
def sampleCfg : MapConfig :=
  { tileW := 256, tileH := 128, mapW := 20, mapH := 20
    offX := 2560, offY := 1280
    areaCellW := 8, areaCellH := 8
    areaSizeW := 3, areaSizeH := 3
    viewW := 960, viewH := 640 }

/-- A larger configuration (map 40×40 cells, area side 8, area grid 5×5)
used to exercise interior area transitions. -/
def wideCfg : MapConfig :=
  { tileW := 256, tileH := 128, mapW := 40, mapH := 40
    offX := 5120, offY := 2560
    areaCellW := 8, areaCellH := 8
    areaSizeW := 5, areaSizeH := 5
    viewW := 960, viewH := 640 }

/-- If a key is absent from the front list, lookup skips it. -/
theorem lookup_append_of_none {st : List (ℤ × MapAreaData)} {id : ℤ}
    (h : st.lookup id = none) (l : List (ℤ × MapAreaData)) :
    (st ++ l).lookup id = l.lookup id := by
  induction st with
  | nil => simp
  | cons a t ih =>
    rw [List.cons_append]
    simp only [List.lookup] at h ⊢
    cases hk : (id == a.1) with
    | true => rw [hk] at h; exact Option.noConfusion h
    | false => rw [hk] at h; exact ih h

/-- C5: `MapAreaData.checkAndUpdateQryTime` permits a fetch exactly when
at least `MAX_TIME = 10000` ms elapsed since the stored timestamp,
updates the timestamp exactly when it permits, and consequently a second
call 5 s after a permitted call is refused while one 11 s after is
permitted. -/
theorem MapAreaData.checkAndUpdateQryTime_spec (d : MapAreaData) (now : ℤ) :
    ((d.checkAndUpdateQryTime now).1 = true ↔ 10000 ≤ now - d.qryStartTime) ∧
    ((d.checkAndUpdateQryTime now).2 =
      if (d.checkAndUpdateQryTime now).1 = true then { d with qryStartTime := now } else d) ∧
    ((d.checkAndUpdateQryTime now).1 = true →
      (((d.checkAndUpdateQryTime now).2.checkAndUpdateQryTime (now + 5000)).1 = false ∧
       ((d.checkAndUpdateQryTime now).2.checkAndUpdateQryTime (now + 11000)).1 = true)) := by
  unfold MapAreaData.checkAndUpdateQryTime MapAreaData.MAX_TIME
  by_cases h : 10000 ≤ now - d.qryStartTime
  · rw [if_pos h]
    refine ⟨by simp [h], by simp, fun _ => ⟨?_, ?_⟩⟩
    · simp only
      rw [if_neg (by omega)]
    · simp only
      rw [if_pos (by omega)]
  · rw [if_neg h]
    exact ⟨by simp [h], by simp, fun hc => by simp at hc⟩

/-- C5 witness: on a fresh descriptor at time 20000 the first call is
permitted, a call 5 s later is refused, and a call 11 s later is
permitted. -/
theorem MapAreaData.checkAndUpdateQryTime_spec_witness :
    ((MapAreaData.mk 0 0 0 0 0 0 0 0 0).checkAndUpdateQryTime 20000).1 = true ∧
    (((MapAreaData.mk 0 0 0 0 0 0 0 0 0).checkAndUpdateQryTime 20000).2.checkAndUpdateQryTime
      (20000 + 5000)).1 = false ∧
    (((MapAreaData.mk 0 0 0 0 0 0 0 0 0).checkAndUpdateQryTime 20000).2.checkAndUpdateQryTime
      (20000 + 11000)).1 = true := by
  have T := MapAreaData.checkAndUpdateQryTime_spec (MapAreaData.mk 0 0 0 0 0 0 0 0 0) 20000
  have h : ((MapAreaData.mk 0 0 0 0 0 0 0 0 0).checkAndUpdateQryTime 20000).1 = true :=
    T.1.mpr (by decide)
  exact ⟨h, (T.2.2 h).1, (T.2.2 h).2⟩

/-- C8: calling `setCurCenterPoint` with the stored center cell returns
false, leaves the whole state (center cell, center area id, descriptors,
fetch queue) unchanged and emits no notification. -/
theorem MapProxy.setCurCenterPoint_same_point_noop (c : MapConfig) (s : ProxyState)
    (point : ℤ × ℤ) (pixelPoint : ℚ × ℚ) (h : s.curCenterPoint = some point) :
    MapProxy.setCurCenterPoint c s point pixelPoint = (false, s, []) := by
  unfold MapProxy.setCurCenterPoint
  rw [if_pos h]

/-- C8 witness. -/
theorem MapProxy.setCurCenterPoint_same_point_noop_witness :
    MapProxy.setCurCenterPoint sampleCfg ⟨some (3, 3), 0, [], []⟩ (3, 3) (0, 0) =
      (false, ⟨some (3, 3), 0, [], []⟩, []) :=
  MapProxy.setCurCenterPoint_same_point_noop sampleCfg ⟨some (3, 3), 0, [], []⟩ (3, 3) (0, 0) rfl

/-- C9: a call with a new cell inside the current center area returns
true, stores the new center cell and emits only the center-changed
notification; center area id, descriptor store and fetch queue are
untouched. -/
theorem MapProxy.setCurCenterPoint_same_area (c : MapConfig) (s : ProxyState)
    (point q : ℤ × ℤ) (pixelPoint : ℚ × ℚ)
    (h1 : s.curCenterPoint = some q) (h2 : q ≠ point)
    (h3 : s.curCenterAreaId ≠ -1)
    (h4 : MapUtil.getAreaIdByCellPoint c point.1 point.2 = s.curCenterAreaId) :
    MapProxy.setCurCenterPoint c s point pixelPoint =
      (true, { s with curCenterPoint := some point }, [MapEvent.centerChange point]) := by
  unfold MapProxy.setCurCenterPoint
  rw [if_neg (by rw [h1]; simp [h2]), if_neg]
  push_neg
  exact ⟨h3, h4.symm⟩

/-- C9 witness: moving from cell (0,0) to cell (1,1), both inside area 0
of the sample configuration. -/
theorem MapProxy.setCurCenterPoint_same_area_witness :
    MapProxy.setCurCenterPoint sampleCfg ⟨some (0, 0), 0, [], []⟩ (1, 1) (0, 0) =
      (true, ⟨some (1, 1), 0, [], []⟩, [MapEvent.centerChange (1, 1)]) :=
  MapProxy.setCurCenterPoint_same_area sampleCfg ⟨some (0, 0), 0, [], []⟩ (1, 1) (0, 0) (0, 0)
    rfl (by decide) (by decide)
    (by norm_num [MapUtil.getAreaIdByCellPoint, MapUtil.getAreaPointByCellPoint,
      MapUtil.getIdByAreaPoint, sampleCfg])

/-- C10: on first access to a valid area id, `getMapAreaData` creates a
descriptor whose fields are derived from the id and the configured area
cell side length, and a second call returns that very descriptor with the
store unchanged. -/
theorem MapProxy.getMapAreaData_spec (c : MapConfig) (st : List (ℤ × MapAreaData)) (id : ℤ)
    (h0 : 0 ≤ id) (h1 : id < MapUtil.areaCount c)
    (h2 : st.lookup id = none) (hsq : c.areaCellH = c.areaCellW) :
    (MapProxy.getMapAreaData c st id).1.id = id ∧
    ((MapProxy.getMapAreaData c st id).1.x, (MapProxy.getMapAreaData c st id).1.y) =
      MapUtil.getAreaPointById c id ∧
    (MapProxy.getMapAreaData c st id).1.startCellX =
      (MapProxy.getMapAreaData c st id).1.x * c.areaCellW ∧
    (MapProxy.getMapAreaData c st id).1.startCellY =
      (MapProxy.getMapAreaData c st id).1.y * c.areaCellW ∧
    (MapProxy.getMapAreaData c st id).1.endCellX =
      (MapProxy.getMapAreaData c st id).1.startCellX + c.areaCellW ∧
    (MapProxy.getMapAreaData c st id).1.endCellY =
      (MapProxy.getMapAreaData c st id).1.startCellY + c.areaCellW ∧
    (MapProxy.getMapAreaData c st id).1.len = c.areaCellW ∧
    MapProxy.getMapAreaData c (MapProxy.getMapAreaData c st id).2 id =
      ((MapProxy.getMapAreaData c st id).1, (MapProxy.getMapAreaData c st id).2) := by
  unfold MapProxy.getMapAreaData
  rw [h2]
  simp only
  refine ⟨rfl, ?_, ?_, ?_, rfl, rfl, rfl, ?_⟩
  · rfl
  · rfl
  · simp [MapProxy.mkAreaData, MapUtil.getStartCellPointByAreaPoint, hsq]
  · rw [lookup_append_of_none h2]
    simp [List.lookup]

/-- C10 witness: area id 4 of the sample configuration. -/
theorem MapProxy.getMapAreaData_spec_witness :
    (MapProxy.getMapAreaData sampleCfg [] 4).1.id = 4 ∧
    ((MapProxy.getMapAreaData sampleCfg [] 4).1.x, (MapProxy.getMapAreaData sampleCfg [] 4).1.y) =
      MapUtil.getAreaPointById sampleCfg 4 ∧
    (MapProxy.getMapAreaData sampleCfg [] 4).1.startCellX =
      (MapProxy.getMapAreaData sampleCfg [] 4).1.x * sampleCfg.areaCellW ∧
    (MapProxy.getMapAreaData sampleCfg [] 4).1.startCellY =
      (MapProxy.getMapAreaData sampleCfg [] 4).1.y * sampleCfg.areaCellW ∧
    (MapProxy.getMapAreaData sampleCfg [] 4).1.endCellX =
      (MapProxy.getMapAreaData sampleCfg [] 4).1.startCellX + sampleCfg.areaCellW ∧
    (MapProxy.getMapAreaData sampleCfg [] 4).1.endCellY =
      (MapProxy.getMapAreaData sampleCfg [] 4).1.startCellY + sampleCfg.areaCellW ∧
    (MapProxy.getMapAreaData sampleCfg [] 4).1.len = sampleCfg.areaCellW ∧
    MapProxy.getMapAreaData sampleCfg (MapProxy.getMapAreaData sampleCfg [] 4).2 4 =
      ((MapProxy.getMapAreaData sampleCfg [] 4).1, (MapProxy.getMapAreaData sampleCfg [] 4).2) :=
  MapProxy.getMapAreaData_spec sampleCfg [] 4 (by decide) (by decide) rfl rfl

/-- C3 counterexample: for viewport height 10000, tile height 128 and
map cell height 5, the computed area side is clamped to 5, which is
neither even nor at least 2 greater than `⌈10000/128⌉ = 79`; so the
claim, quantified over every viewport/tile/map height, is false. -/
theorem MapUtil.initAreaCellSide_claim_false :
    ¬ (Even (MapUtil.initAreaCellSide 10000 128 5) ∧
       ⌈(10000 : ℚ) / 128⌉ + 2 ≤ MapUtil.initAreaCellSide 10000 128 5 ∧
       MapUtil.initAreaCellSide 10000 128 5 ≤ 5) := by
  have h : MapUtil.initAreaCellSide 10000 128 5 = 5 := by
    unfold MapUtil.initAreaCellSide
    have hc : ⌈(10000 : ℚ) / 128 / 2⌉ = 40 := by
      rw [Int.ceil_eq_iff] <;> norm_num
    rw [hc]; decide
  intro hcl
  rw [h] at hcl
  exact (by decide : ¬ Even (5 : ℤ)) hcl.1

/-- C3 amended: the area side computed by `initMapConfig` never exceeds
the map cell height, unconditionally; and whenever the viewport-derived
candidate `⌈viewH/tileH/2⌉*2 + 2` does not exceed the map cell height
(so the `min` does not clamp), it is moreover even and at least 2
greater than `⌈viewH/tileH⌉`. -/
theorem MapUtil.initAreaCellSide_unclamped_props (viewH tileH : ℚ) (mapH : ℤ) :
    MapUtil.initAreaCellSide viewH tileH mapH ≤ mapH ∧
    (⌈viewH / tileH / 2⌉ * 2 + 2 ≤ mapH →
      Even (MapUtil.initAreaCellSide viewH tileH mapH) ∧
      ⌈viewH / tileH⌉ + 2 ≤ MapUtil.initAreaCellSide viewH tileH mapH) := by
  unfold MapUtil.initAreaCellSide
  refine ⟨min_le_right _ _, fun h => ?_⟩
  rw [min_eq_left h]
  refine ⟨⟨⌈viewH / tileH / 2⌉ + 1, by ring⟩, ?_⟩
  have h1 : viewH / tileH ≤ ((⌈viewH / tileH / 2⌉ * 2 : ℤ) : ℚ) := by
    have := Int.le_ceil (viewH / tileH / 2)
    push_cast
    linarith
  have h2 : ⌈viewH / tileH⌉ ≤ ⌈viewH / tileH / 2⌉ * 2 := Int.ceil_le.mpr h1
  linarith

/-- C3 amended witness: viewport height 640, tile height 128, map height
20 give area side 8: at most 20, even, and at least `⌈640/128⌉ + 2`. -/
theorem MapUtil.initAreaCellSide_unclamped_props_witness :
    MapUtil.initAreaCellSide 640 128 20 ≤ 20 ∧
    Even (MapUtil.initAreaCellSide 640 128 20) ∧
    ⌈(640 : ℚ) / 128⌉ + 2 ≤ MapUtil.initAreaCellSide 640 128 20 := by
  have T := MapUtil.initAreaCellSide_unclamped_props 640 128 20
  have hc : ⌈(640 : ℚ) / 128 / 2⌉ = 3 := by rw [Int.ceil_eq_iff] <;> norm_num
  have h := T.2 (by rw [hc]; norm_num)
  exact ⟨T.1, h.1, h.2⟩

/-- C6: on a square map with positive tile sizes, converting a cell to
its map-pixel center and back recovers the cell exactly. -/
theorem MapUtil.mapPixel_cell_roundtrip (c : MapConfig) (hsq : c.mapW = c.mapH)
    (htw : 0 < c.tileW) (hth : 0 < c.tileH) (p : ℤ × ℤ) :
    MapUtil.mapPixelToCellPoint c (MapUtil.mapCellToPixelPoint c p) = p := by
  unfold MapUtil.mapPixelToCellPoint MapUtil.mapCellToPixelPoint
    MapUtil.mapCellToWorldPixelPoint MapUtil.worldPixelToMapCellPoint
    MapUtil.zeroPixelX MapUtil.zeroPixelY
  have htw0 : c.tileW ≠ 0 := ne_of_gt htw
  have hth0 : c.tileH ≠ 0 := ne_of_gt hth
  have hx : (1 / 2 : ℚ) * (c.mapH : ℚ) +
      ((c.mapW : ℚ) * c.tileW * (1 / 2) - ((p.2 : ℚ) - (p.1 : ℚ)) * c.tileW * (1 / 2) - c.offX
        + c.offX) / c.tileW -
      ((c.mapH : ℚ) * c.tileH - c.tileH * (1 / 2) - ((p.1 : ℚ) + (p.2 : ℚ)) * c.tileH * (1 / 2)
        - c.offY + c.offY) / c.tileH = (p.1 : ℚ) + 1 / 2 := by
    rw [hsq]
    field_simp
    ring
  have hy : (3 / 2 : ℚ) * (c.mapW : ℚ) -
      ((c.mapW : ℚ) * c.tileW * (1 / 2) - ((p.2 : ℚ) - (p.1 : ℚ)) * c.tileW * (1 / 2) - c.offX
        + c.offX) / c.tileW -
      ((c.mapH : ℚ) * c.tileH - c.tileH * (1 / 2) - ((p.1 : ℚ) + (p.2 : ℚ)) * c.tileH * (1 / 2)
        - c.offY + c.offY) / c.tileH = (p.2 : ℚ) + 1 / 2 := by
    rw [hsq]
    field_simp
    ring
  have hhalf : ⌊(1 / 2 : ℚ)⌋ = 0 := by norm_num
  simp only [hx, hy, Int.floor_int_add, hhalf, add_zero]

/-- C6 witness: cell (5,7) of the sample configuration round-trips
exactly. -/
theorem MapUtil.mapPixel_cell_roundtrip_witness :
    MapUtil.mapPixelToCellPoint sampleCfg (MapUtil.mapCellToPixelPoint sampleCfg (5, 7)) =
      (5, 7) :=
  MapUtil.mapPixel_cell_roundtrip sampleCfg rfl (by norm_num [sampleCfg]) (by norm_num [sampleCfg])
    (5, 7)

set_option maxHeartbeats 1000000 in
/-- C7: on a square map with positive tile sizes, converting any world
pixel point to its cell and back lands within one tile: the x difference
is less than the tile width and the y difference at most the tile
height. -/
theorem MapUtil.world_roundtrip_within_tile (c : MapConfig) (hsq : c.mapW = c.mapH)
    (htw : 0 < c.tileW) (hth : 0 < c.tileH) (p : ℚ × ℚ) :
    |(MapUtil.mapCellToWorldPixelPoint c (MapUtil.worldPixelToMapCellPoint c p)).1 - p.1| <
      c.tileW ∧
    |(MapUtil.mapCellToWorldPixelPoint c (MapUtil.worldPixelToMapCellPoint c p)).2 - p.2| ≤
      c.tileH := by
  unfold MapUtil.mapCellToWorldPixelPoint MapUtil.worldPixelToMapCellPoint
    MapUtil.zeroPixelX MapUtil.zeroPixelY
  dsimp only
  have htw0 : c.tileW ≠ 0 := ne_of_gt htw
  have hth0 : c.tileH ≠ 0 := ne_of_gt hth
  set u : ℚ := (1 / 2 : ℚ) * (c.mapH : ℚ) + p.1 / c.tileW - p.2 / c.tileH with hu
  set v : ℚ := (3 / 2 : ℚ) * (c.mapW : ℚ) - p.1 / c.tileW - p.2 / c.tileH with hv
  have hxeq : (c.mapW : ℚ) * c.tileW * (1 / 2) -
      (((⌊v⌋ : ℚ)) - ((⌊u⌋ : ℚ))) * c.tileW * (1 / 2) - p.1 =
      c.tileW * ((v - ⌊v⌋) - (u - ⌊u⌋)) / 2 := by
    rw [hu, hv, hsq]
    field_simp
    ring
  have hyeq : (c.mapH : ℚ) * c.tileH - c.tileH * (1 / 2) -
      (((⌊u⌋ : ℚ)) + ((⌊v⌋ : ℚ))) * c.tileH * (1 / 2) - p.2 =
      c.tileH * ((u - ⌊u⌋) + (v - ⌊v⌋) - 1) / 2 := by
    rw [hu, hv, hsq]
    field_simp
    ring
  have hsu1 : 0 ≤ u - ⌊u⌋ := by linarith [Int.floor_le u]
  have hsu2 : u - ⌊u⌋ < 1 := by linarith [Int.lt_floor_add_one u]
  have hsv1 : 0 ≤ v - ⌊v⌋ := by linarith [Int.floor_le v]
  have hsv2 : v - ⌊v⌋ < 1 := by linarith [Int.lt_floor_add_one v]
  rw [hxeq, hyeq, abs_lt, abs_le]
  generalize hgu : u - ((⌊u⌋ : ℤ) : ℚ) = su at hsu1 hsu2 ⊢
  generalize hgv : v - ((⌊v⌋ : ℤ) : ℚ) = sv at hsv1 hsv2 ⊢
  clear hxeq hyeq hgu hgv hu hv htw0 hth0 hsq
  refine ⟨⟨?_, ?_⟩, ?_, ?_⟩
  · nlinarith [mul_pos htw (show (0 : ℚ) < sv - su + 2 by linarith)]
  · nlinarith [mul_pos htw (show (0 : ℚ) < 2 - (sv - su) by linarith)]
  · nlinarith [mul_nonneg (le_of_lt hth) (show (0 : ℚ) ≤ su + sv - 1 + 2 by linarith)]
  · nlinarith [mul_nonneg (le_of_lt hth) (show (0 : ℚ) ≤ 2 - (su + sv - 1) by linarith)]

/-- C7 witness: the world pixel point (100, 50) of the sample
configuration. -/
theorem MapUtil.world_roundtrip_within_tile_witness :
    |(MapUtil.mapCellToWorldPixelPoint sampleCfg
        (MapUtil.worldPixelToMapCellPoint sampleCfg (100, 50))).1 - 100| < sampleCfg.tileW ∧
    |(MapUtil.mapCellToWorldPixelPoint sampleCfg
        (MapUtil.worldPixelToMapCellPoint sampleCfg (100, 50))).2 - 50| ≤ sampleCfg.tileH :=
  MapUtil.world_roundtrip_within_tile sampleCfg rfl (by norm_num [sampleCfg])
    (by norm_num [sampleCfg]) (100, 50)

/-- C4: during an area transition whose previous center area exists and
whose descriptors are fuzzily equal within tolerance 3 (continuous
panning), the visible-areas-changed notification carries
`addIds = newIds − oldIds` and `removeIds = oldIds − newIds`, the
ordered set differences of the two valid 9-neighborhoods. -/
theorem MapProxy.panning_diff_spec (c : MapConfig) (s : ProxyState) (point : ℤ × ℤ)
    (pixelPoint : ℚ × ℚ)
    (h1 : s.curCenterPoint ≠ some point)
    (h2 : s.curCenterAreaId ≠ -1)
    (h3 : s.curCenterAreaId ≠ MapUtil.getAreaIdByCellPoint c point.1 point.2)
    (h5 : (MapProxy.getMapAreaData c s.mapAreaDatas
            (MapUtil.getAreaIdByCellPoint c point.1 point.2)).1.id =
          MapUtil.getAreaIdByCellPoint c point.1 point.2)
    (h4 : MapAreaData.fuzzyEquals
            (MapProxy.getMapAreaData c
              (MapProxy.getMapAreaData c s.mapAreaDatas
                (MapUtil.getAreaIdByCellPoint c point.1 point.2)).2
              s.curCenterAreaId).1
            (MapProxy.getMapAreaData c s.mapAreaDatas
              (MapUtil.getAreaIdByCellPoint c point.1 point.2)).1 3 = true) :
    (MapProxy.setCurCenterPoint c s point pixelPoint).2.2 =
      [MapEvent.centerChange point,
       MapEvent.showAreaChange point (MapUtil.getAreaIdByCellPoint c point.1 point.2)
         ((MapUtil.get9GridVaildAreaIds c
            (MapUtil.getAreaIdByCellPoint c point.1 point.2)).filter
           (fun i => !((MapUtil.get9GridVaildAreaIds c s.curCenterAreaId).contains i)))
         ((MapUtil.get9GridVaildAreaIds c s.curCenterAreaId).filter
           (fun i => !((MapUtil.get9GridVaildAreaIds c
             (MapUtil.getAreaIdByCellPoint c point.1 point.2)).contains i)))] := by
  simp only [MapUtil.getAreaIdByCellPoint] at h3 h5 h4 ⊢
  simp only [MapProxy.setCurCenterPoint]
  rw [if_neg h1, if_pos (Or.inr h3), if_neg h2, h4, if_neg (by decide : ¬(true = false))]
  simp only [MapProxy.finishTransition]
  rw [h5]

/-- Cell (16, 24) of the wide configuration lies in area (2, 3), id 17. -/
theorem wideCfg_areaId_16_24 : MapUtil.getAreaIdByCellPoint wideCfg 16 24 = 17 := by
  norm_num [MapUtil.getAreaIdByCellPoint, MapUtil.getAreaPointByCellPoint,
    MapUtil.getIdByAreaPoint, wideCfg]

/-- C4 witness: panning from center area 12 to adjacent area 17 on the
5×5 area grid adds the newly exposed row [21,22,23] and removes the
hidden row [6,7,8]. -/
theorem MapProxy.panning_diff_spec_witness :
    (MapProxy.setCurCenterPoint wideCfg
        ⟨some (16, 16), 12, [(12, MapProxy.mkAreaData wideCfg 12)], []⟩ (16, 24) (0, 0)).2.2 =
      [MapEvent.centerChange (16, 24),
       MapEvent.showAreaChange (16, 24) 17 [21, 22, 23] [6, 7, 8]] := by
  rw [MapProxy.panning_diff_spec wideCfg
    ⟨some (16, 16), 12, [(12, MapProxy.mkAreaData wideCfg 12)], []⟩ (16, 24) (0, 0)
    (by decide) (by decide)
    (by rw [wideCfg_areaId_16_24]; decide)
    (by rw [wideCfg_areaId_16_24]
        norm_num [MapProxy.getMapAreaData, MapProxy.mkAreaData, MapUtil.getAreaPointById,
          MapUtil.getStartCellPointByAreaPoint, List.lookup, wideCfg, Int.tmod] <;> decide)
    (by rw [wideCfg_areaId_16_24]
        norm_num [MapProxy.getMapAreaData, MapProxy.mkAreaData, MapUtil.getAreaPointById,
          MapUtil.getStartCellPointByAreaPoint, MapAreaData.fuzzyEquals, List.lookup, wideCfg,
          Int.tmod] <;> decide)]
  rw [wideCfg_areaId_16_24]
  norm_num [MapUtil.get9GridVaildAreaIds, MapUtil.get9GridAreaIds, MapUtil.isVaildAreaId,
    MapUtil.areaCount, wideCfg, List.filter]

/-- C2 evaluation: from the unset state, `setCurCenterPoint((0,0), (0,0))`
on the sample configuration emits `removeIds = []` but
`addIds = [2, 3, 4, 0, 1]` — five ids, because the raw 9-grid entry
`0 + areaSizeW - 1 = 2` (the off-map neighbor (-1, 1) aliased by pure id
arithmetic to area (2, 0)) survives the id-range-only validity filter. -/
theorem MapProxy.initial_center_addIds_eval :
    (MapProxy.setCurCenterPoint sampleCfg ⟨none, -1, [], []⟩ (0, 0) (0, 0)).2.2 =
      [MapEvent.centerChange (0, 0), MapEvent.showAreaChange (0, 0) 0 [2, 3, 4, 0, 1] []] ∧
    MapUtil.getAreaPointById sampleCfg 2 = (2, 0) := by
  constructor
  · norm_num [MapProxy.setCurCenterPoint, MapProxy.finishTransition, MapProxy.getMapAreaData,
      MapProxy.mkAreaData, MapProxy.cornerPoints, MapProxy.jsIndexOf,
      MapUtil.getVaildAreaIdsByPixelPoints, MapUtil.mapPixelToCellPoint,
      MapUtil.worldPixelToMapCellPoint, MapUtil.getAreaPointByCellPoint,
      MapUtil.getIdByAreaPoint, MapUtil.getAreaPointById, MapUtil.get9GridVaildAreaIds,
      MapUtil.get9GridAreaIds, MapUtil.isVaildAreaId, MapUtil.areaCount,
      MapUtil.getStartCellPointByAreaPoint, MapAreaData.fuzzyEquals, sampleCfg,
      List.lookup, List.filter, List.foldl] <;> decide
  · norm_num [MapUtil.getAreaPointById, sampleCfg, Int.tmod]

/-- C1 evaluation: panning from center area 4 to adjacent area 5 on the
3×3 area grid yields `addIds = []` (every neighbor is already resident),
yet `addIds.indexOf(5) = -1` is truthy, so the code still appends the
priority list `[5]` to the fetch queue. -/
theorem MapProxy.panning_priority_truthiness_eval :
    (MapProxy.setCurCenterPoint sampleCfg
        ⟨some (8, 8), 4, [(4, MapProxy.mkAreaData sampleCfg 4)], []⟩ (16, 8)
        (0, 0)).2.1.qryAreaIds = [5] ∧
    (MapProxy.setCurCenterPoint sampleCfg
        ⟨some (8, 8), 4, [(4, MapProxy.mkAreaData sampleCfg 4)], []⟩ (16, 8) (0, 0)).2.2 =
      [MapEvent.centerChange (16, 8), MapEvent.showAreaChange (16, 8) 5 [] [0]] := by
  constructor <;>
    (norm_num [MapProxy.setCurCenterPoint, MapProxy.finishTransition, MapProxy.getMapAreaData,
      MapProxy.mkAreaData, MapProxy.cornerPoints, MapProxy.jsIndexOf,
      MapUtil.getVaildAreaIdsByPixelPoints, MapUtil.mapPixelToCellPoint,
      MapUtil.worldPixelToMapCellPoint, MapUtil.getAreaPointByCellPoint,
      MapUtil.getIdByAreaPoint, MapUtil.getAreaPointById, MapUtil.get9GridVaildAreaIds,
      MapUtil.get9GridAreaIds, MapUtil.isVaildAreaId, MapUtil.areaCount,
      MapUtil.getStartCellPointByAreaPoint, MapAreaData.fuzzyEquals, sampleCfg,
      List.lookup, List.filter, List.foldl, Int.tmod] <;> decide)

end SLG
